import Mathlib

/-!
Shallow embedding of the nashik-darshan geo/itinerary subsystem.

Sources embedded here:
* `internal/types` Point codec (GeoJSON / flat / WKT wire forms, `IsValid`,
  haversine `Distance`) — from the repository's types package.
* `internal/domain/place` `Location.Validate`.
* The route-optimizer design code (`optimizeRoute` / `findNearest`) from
  `docs/prds/itenary.md`, the only place the optimizer exists in the repo.

Modelling conventions:
* Go `float64` values carried through JSON and arithmetic are modelled as
  exact rationals `ℚ`; `time.Time` is modelled as minutes `ℤ`; IEEE
  non-finite values (NaN/Inf) are outside the model.
* JSON byte inputs are modelled by the inductive `Json`; the constructor
  `Json.invalid` stands for byte strings that are not syntactically valid
  JSON (both Go unmarshal attempts fail on those).
* The haversine `Distance` is modelled over `ℝ` with real `cos`, `sqrt`,
  `arcsin`, keeping the source's literal constants.
-/

namespace NashikDarshan

/-- Decidable equality for `Except`, used to evaluate the codec and
optimizer results on concrete inputs. -/
instance {ε α : Type} [DecidableEq ε] [DecidableEq α] :
    DecidableEq (Except ε α) := fun x y =>
  match x, y with
  | .ok a, .ok b =>
      match decEq a b with
      | isTrue h => isTrue (h ▸ rfl)
      | isFalse h => isFalse fun hh => h (Except.ok.inj hh)
  | .error e, .error f =>
      match decEq e f with
      | isTrue h => isTrue (h ▸ rfl)
      | isFalse h => isFalse fun hh => h (Except.error.inj hh)
  | .ok _, .error _ => isFalse fun h => Except.noConfusion h
  | .error _, .ok _ => isFalse fun h => Except.noConfusion h

/-- Model of a parsed JSON document (Go `encoding/json` input).
`invalid` stands for a byte string that is not well-formed JSON. -/
inductive Json where
  | null : Json
  | bool (b : Bool) : Json
  | num (q : ℚ) : Json
  | str (s : String) : Json
  | arr (elems : List Json) : Json
  | obj (fields : List (String × Json)) : Json
  | invalid : Json

/-- Field lookup in a JSON object. Go's decoder processes keys in order and
a later duplicate key overwrites an earlier one, so the LAST binding wins. -/
def getField : List (String × Json) → String → Option Json
  | [], _ => none
  | (k, v) :: rest, key =>
      match getField rest key with
      | some v2 => some v2
      | none => if k = key then some v else none

/-- Go: unmarshalling a JSON value into a `float64`. A number is taken as-is;
`null` has no effect and leaves the zero value; anything else errors. -/
def decodeNum : Json → Except String ℚ
  | .num q => .ok q
  | .null => .ok 0
  | _ => .error "json: cannot unmarshal value into Go value of type float64"

/-- `GeoJSONPoint` struct from the types package: `Type` and `Coordinates`
(the Go field `Type` is written lowercase `type` here). -/
structure GeoJSONPoint where
  type : String
  coordinates : List ℚ
deriving DecidableEq

/-- Go `json.Unmarshal(data, &geoJSON)` for `GeoJSONPoint`: the input must be
an object (or `null`, which leaves the zero value); a present `type` field
must be a string, a present `coordinates` field must be an array of numbers;
absent or `null` fields keep their zero values; unknown keys are ignored. -/
def unmarshalGeoJSONPoint : Json → Except String GeoJSONPoint
  | .null => .ok ⟨"", []⟩
  | .obj fields => do
      let t ← match getField fields "type" with
        | none => Except.ok ""
        | some .null => Except.ok ""
        | some (.str s) => Except.ok s
        | some _ => Except.error "json: cannot unmarshal value into Go value of type string"
      let cs ← match getField fields "coordinates" with
        | none => Except.ok []
        | some .null => Except.ok []
        | some (.arr xs) => xs.mapM decodeNum
        | some _ => Except.error "json: cannot unmarshal value into Go value of type []float64"
      Except.ok ⟨t, cs⟩
  | _ => .error "json: cannot unmarshal value into Go value of type types.GeoJSONPoint"

/-- The anonymous `alias` struct inside `Point.UnmarshalJSON`:
`{Longitude float64; Latitude float64}` with json tags. -/
structure FlatPoint where
  longitude : ℚ
  latitude : ℚ
deriving DecidableEq

/-- Go `json.Unmarshal(data, &a)` for the flat alias struct. -/
def unmarshalFlat : Json → Except String FlatPoint
  | .null => .ok ⟨0, 0⟩
  | .obj fields => do
      let lng ← match getField fields "longitude" with
        | none => Except.ok 0
        | some j => decodeNum j
      let lat ← match getField fields "latitude" with
        | none => Except.ok 0
        | some j => decodeNum j
      Except.ok ⟨lng, lat⟩
  | _ => .error "json: cannot unmarshal value into Go value of type struct"

/-- `Point` from the types package: longitude then latitude, both `float64`. -/
structure Point where
  longitude : ℚ
  latitude : ℚ
deriving DecidableEq

/-- `Point.IsValid`: latitude in [-90, 90], longitude in [-180, 180]. -/
def Point.IsValid (p : Point) : Bool :=
  if p.latitude < -90 ∨ p.latitude > 90 then false
  else if p.longitude < -180 ∨ p.longitude > 180 then false
  else true

/-- `Point.ToGeoJSON`: `{Type: "Point", Coordinates: [longitude, latitude]}`. -/
def Point.ToGeoJSON (p : Point) : GeoJSONPoint :=
  ⟨"Point", [p.longitude, p.latitude]⟩

/-- `PointFromGeoJSON`: checks the type tag, the coordinate count, then range
validity; longitude is coordinate 0 and latitude coordinate 1. -/
def PointFromGeoJSON (gj : GeoJSONPoint) : Except String Point :=
  if gj.type ≠ "Point" then .error "invalid GeoJSON type"
  else if gj.coordinates.length ≠ 2 then .error "invalid coordinates"
  else if (Point.mk (gj.coordinates.getD 0 0) (gj.coordinates.getD 1 0)).IsValid then
    .ok ⟨gj.coordinates.getD 0 0, gj.coordinates.getD 1 0⟩
  else .error "invalid coordinates"

/-- The fallback branch of `Point.UnmarshalJSON`: unmarshal into the flat
alias, copy the fields, then range-validate. -/
def fallbackFlat (data : Json) : Except String Point :=
  match unmarshalFlat data with
  | .error e => .error e
  | .ok a =>
      if (Point.mk a.longitude a.latitude).IsValid then .ok ⟨a.longitude, a.latitude⟩
      else .error "invalid coordinates"

/-- `Point.UnmarshalJSON`: try the GeoJSON form first; if that unmarshal
succeeds AND the type tag is "Point", the GeoJSON path decides the result;
otherwise fall back to the flat `{longitude, latitude}` form. -/
def unmarshalPoint (data : Json) : Except String Point :=
  match unmarshalGeoJSONPoint data with
  | .ok gj =>
      if gj.type = "Point" then PointFromGeoJSON gj
      else fallbackFlat data
  | .error _ => fallbackFlat data

/-- Serialization of a `GeoJSONPoint` back to JSON (Go `json.Marshal` on the
struct, fields in declaration order). -/
def marshalGeoJSONPoint (gj : GeoJSONPoint) : Json :=
  .obj [("type", .str gj.type), ("coordinates", .arr (gj.coordinates.map .num))]

/-- `Point.MarshalJSON`: always emits the GeoJSON form of the point. -/
def Point.MarshalJSON (p : Point) : Json :=
  marshalGeoJSONPoint p.ToGeoJSON

/-- Go's `%f` verb renders a float with exactly six digits after the decimal
point: the emitted numeral denotes the value rounded to 6 decimals. -/
def round6 (q : ℚ) : ℚ :=
  ((round (q * 1000000) : ℤ) : ℚ) / 1000000

/-- Model of a well-formed WKT text `POINT(lng lat)`: the two decimal
numerals appearing in the string, longitude first. -/
structure WKTText where
  lng : ℚ
  lat : ℚ
deriving DecidableEq

/-- `Point.ToWKT`: `fmt.Sprintf("POINT(%f %f)", longitude, latitude)` —
the `%f` verb truncates both coordinates to six decimal places. -/
def Point.ToWKT (p : Point) : WKTText :=
  ⟨round6 p.longitude, round6 p.latitude⟩

/-- `PointFromWKT` on a well-formed `POINT(lng lat)` text: read longitude
then latitude, then range-validate. (Malformed texts, on which `Sscanf`
fails, are outside the `WKTText` model and always error.) -/
def PointFromWKT (w : WKTText) : Except String Point :=
  if (Point.mk w.lng w.lat).IsValid then .ok ⟨w.lng, w.lat⟩
  else .error "invalid coordinates in WKT"

/-- `Location` from the place domain package (decimal.Decimal modelled
as `ℚ`), latitude first. -/
structure Location where
  latitude : ℚ
  longitude : ℚ
deriving DecidableEq

/-- `Location.Validate`: latitude range check, then longitude range check. -/
def Location.Validate (l : Location) : Except String Unit :=
  if l.latitude < -90 ∨ l.latitude > 90 then .error "invalid latitude"
  else if l.longitude < -180 ∨ l.longitude > 180 then .error "invalid longitude"
  else .ok ()

/-- `Point.Distance`: haversine distance in kilometres over `ℝ`, keeping the
source's literal π approximation and Earth radius. -/
noncomputable def Point.Distance (p other : Point) : ℝ :=
  let earthRadiusKm : ℝ := 6371.0
  let lat1 := (p.latitude : ℝ) * (3.141592653589793 / 180.0)
  let lon1 := (p.longitude : ℝ) * (3.141592653589793 / 180.0)
  let lat2 := (other.latitude : ℝ) * (3.141592653589793 / 180.0)
  let lon2 := (other.longitude : ℝ) * (3.141592653589793 / 180.0)
  let dlat := lat2 - lat1
  let dlon := lon2 - lon1
  let a := 0.5 - Real.cos dlat / 2 +
    Real.cos lat1 * Real.cos lat2 * (1 - Real.cos dlon) / 2
  earthRadiusKm * 2 * Real.arcsin (Real.sqrt a)

/-! ## Route optimizer (from the PRD's `optimizeRoute` / `findNearest`) -/

/-- A place as the optimizer sees it (`*ent.Place`): an id and a location. -/
structure PlaceE where
  id : String
  location : Location
deriving DecidableEq

/-- The `DistanceMatrix` capability consumed by the optimizer: distances in
kilometres, travel times in whole minutes. In the PRD this is supplied by
`routingClient.GetDistanceMatrix`; here it is a parameter. -/
structure DistanceMatrix where
  GetDistance : Location → Location → ℚ
  GetTime : Location → Location → ℤ

/-- `math.MaxFloat64`, the initial `minDist` in `findNearest`: the numeral
is the exact integer value of (2^53 − 1)·2^971, the largest finite float64. -/
def maxFloat64 : ℚ := 179769313486231570814527423731704356798070567525844996598917476803157260780028538760589558632766878171540458953514382464234321326889464182768467546703537516986049910576551282076245490090389328944075868508455133942304583236903222948165808559332123348274797826204144723168738177180919299881250404026184124858368

/-- One stop of the computed plan (`Visit` in the PRD). -/
structure Visit where
  SequenceOrder : ℤ
  Place : PlaceE
  ArrivalTime : ℤ
  DepartureTime : ℤ
  VisitDuration : ℤ
  TravelTimeFromPrevious : ℤ
  DistanceFromPrevious : ℚ
deriving DecidableEq

/-- `OptimizedRoute` returned on success. -/
structure OptimizedRoute where
  Visits : List Visit
  TotalDistanceKm : ℚ
  TotalTravelTime : ℤ
  CompletionTime : ℤ
  TimeBufferMinutes : ℤ
  Feasible : Bool
deriving DecidableEq

/-- `findNearest`: scan the remaining places, keeping the strictly closest
one seen so far, starting from `nearest = nil`, `minDist = math.MaxFloat64`.
The Go code ranges over a map, whose iteration order is unspecified; the
list argument's order models one possible iteration order. -/
def findNearest (fromLoc : Location) (places : List PlaceE)
    (matrix : DistanceMatrix) : Option PlaceE × ℚ :=
  places.foldl
    (fun acc place =>
      let dist := matrix.GetDistance fromLoc place.location
      if dist < acc.2 then (some place, dist) else acc)
    (none, maxFloat64)

/-- `delete(unvisited, id)` on the map of remaining places. -/
def removeById (places : List PlaceE) (id : String) : List PlaceE :=
  places.filter (fun p => p.id ≠ id)

/-- The greedy loop of `optimizeRoute` (steps 2–3 of the PRD code). State:
current location, current time, remaining places (in map-iteration order),
accumulated visits, total distance, total travel time, sequence counter.
`fuel` bounds the iteration count; `optimizeRoute` supplies `places.length`,
which always suffices because each pass removes the selected place. The
`none` branch of `findNearest` models the nil-pointer dereference the Go
code would hit if every distance were ≥ `math.MaxFloat64`. -/
def optimizeLoop (matrix : DistanceMatrix) (endTime visitDuration : ℤ) :
    Nat → Location → ℤ → List PlaceE → List Visit → ℚ → ℤ → ℤ →
    Except String (List Visit × ℚ × ℤ × ℤ)
  | _, _, currentTime, [], visits, totalDistance, totalTravelTime, _ =>
      .ok (visits, totalDistance, totalTravelTime, currentTime)
  | 0, _, _, _ :: _, _, _, _, _ => .error "fuel exhausted"
  | fuel + 1, currentLoc, currentTime, unvisited@(_ :: _), visits,
      totalDistance, totalTravelTime, sequenceOrder =>
      match findNearest currentLoc unvisited matrix with
      | (none, _) => .error "panic: nil nearest place"
      | (some nearestPlace, minDist) =>
          let travelTime := matrix.GetTime currentLoc nearestPlace.location
          let arrivalTime := currentTime + travelTime
          let departureTime := arrivalTime + visitDuration
          if departureTime > endTime then
            .error "cannot fit all places: time window exceeded"
          else
            let visit : Visit :=
              ⟨sequenceOrder, nearestPlace, arrivalTime, departureTime,
                visitDuration, travelTime, minDist⟩
            optimizeLoop matrix endTime visitDuration fuel
              nearestPlace.location departureTime
              (removeById unvisited nearestPlace.id)
              (visits ++ [visit])
              (totalDistance + minDist) (totalTravelTime + travelTime)
              (sequenceOrder + 1)

/-- `optimizeRoute`: run the greedy loop from the start location and window
start, then package the `OptimizedRoute` (step 4 of the PRD code). The
distance matrix is passed in (its fetch error path aborts before any visit
and is not modelled). `places` carries the remaining-places map in one
possible iteration order. -/
def optimizeRoute (startLoc : Location) (places : List PlaceE)
    (startTime endTime : ℤ) (visitDuration : ℤ) (matrix : DistanceMatrix) :
    Except String OptimizedRoute :=
  match optimizeLoop matrix endTime visitDuration places.length
      startLoc startTime places [] 0 0 1 with
  | .error e => .error e
  | .ok (visits, totalDistance, totalTravelTime, clock) =>
      .ok { Visits := visits
            TotalDistanceKm := totalDistance
            TotalTravelTime := totalTravelTime
            CompletionTime := clock
            TimeBufferMinutes := endTime - clock
            Feasible := true }

/-- The per-visit timeline chain: each visit departs `dwell` minutes after
it arrives, and arrives `TravelTimeFromPrevious` minutes after the previous
departure (`prevDep`, seeded with the window start for the first visit). -/
def chainOk (dwell : ℤ) : ℤ → List Visit → Bool
  | _, [] => true
  | prevDep, v :: rest =>
      (v.DepartureTime == v.ArrivalTime + dwell) &&
      (v.ArrivalTime == prevDep + v.TravelTimeFromPrevious) &&
      chainOk dwell v.DepartureTime rest

/-- Departure time of the last visit, or `dflt` for an empty list. -/
def lastDeparture (dflt : ℤ) : List Visit → ℤ
  | [] => dflt
  | v :: rest => lastDeparture v.DepartureTime rest

/-! ## Wire-form builders used to state the format-equivalence claims -/

/-- The GeoJSON-Point wire form for a coordinate:
`{"type": "Point", "coordinates": [lng, lat]}`. -/
def geoJsonWire (lng lat : ℚ) : Json :=
  .obj [("type", .str "Point"), ("coordinates", .arr [.num lng, .num lat])]

/-- The flat wire form for a coordinate: `{"latitude": lat, "longitude": lng}`. -/
def flatWire (lng lat : ℚ) : Json :=
  .obj [("latitude", .num lat), ("longitude", .num lng)]

/-- The WKT wire form `POINT(lng lat)` carrying the exact numerals. -/
def wktWire (lng lat : ℚ) : WKTText := ⟨lng, lat⟩

/-- The guard under which `Point.UnmarshalJSON` commits to the GeoJSON path:
the GeoJSON unmarshal succeeded and the type tag is "Point". -/
def geoJsonGuard (data : Json) : Bool :=
  match unmarshalGeoJSONPoint data with
  | .ok gj => gj.type == "Point"
  | .error _ => false

/-! ## Helper lemmas -/

theorem isValid_iff (p : Point) :
    p.IsValid = true ↔
      (-90 ≤ p.latitude ∧ p.latitude ≤ 90 ∧
        -180 ≤ p.longitude ∧ p.longitude ≤ 180) := by
  unfold Point.IsValid
  split
  · rename_i h1
    constructor
    · intro h; cases h
    · rintro ⟨ha, hb, _, _⟩
      rcases h1 with h | h <;> linarith
  · rename_i h1
    push_neg at h1
    split
    · rename_i h2
      constructor
      · intro h; cases h
      · rintro ⟨_, _, hc, hd⟩
        rcases h2 with h | h <;> linarith
    · rename_i h2
      push_neg at h2
      constructor
      · intro _
        exact ⟨h1.1, h1.2, h2.1, h2.2⟩
      · intro _
        rfl

theorem validate_iff (l : Location) :
    l.Validate = .ok () ↔
      (-90 ≤ l.latitude ∧ l.latitude ≤ 90 ∧
        -180 ≤ l.longitude ∧ l.longitude ≤ 180) := by
  unfold Location.Validate
  split
  · rename_i h1
    constructor
    · intro h; cases h
    · rintro ⟨ha, hb, _, _⟩
      rcases h1 with h | h <;> linarith
  · rename_i h1
    push_neg at h1
    split
    · rename_i h2
      constructor
      · intro h; cases h
      · rintro ⟨_, _, hc, hd⟩
        rcases h2 with h | h <;> linarith
    · rename_i h2
      push_neg at h2
      constructor
      · intro _
        exact ⟨h1.1, h1.2, h2.1, h2.2⟩
      · intro _
        rfl

theorem pointFromGeoJSON_isValid {gj : GeoJSONPoint} {p : Point}
    (h : PointFromGeoJSON gj = .ok p) : p.IsValid = true := by
  unfold PointFromGeoJSON at h
  split at h
  · cases h
  · split at h
    · cases h
    · split at h
      · rename_i hv
        cases h
        exact hv
      · cases h

theorem pointFromWKT_isValid {w : WKTText} {p : Point}
    (h : PointFromWKT w = .ok p) : p.IsValid = true := by
  unfold PointFromWKT at h
  split at h
  · rename_i hv
    cases h
    exact hv
  · cases h

theorem fallbackFlat_isValid {j : Json} {p : Point}
    (h : fallbackFlat j = .ok p) : p.IsValid = true := by
  unfold fallbackFlat at h
  split at h
  · cases h
  · split at h
    · rename_i hv
      cases h
      exact hv
    · cases h

theorem unmarshalPoint_isValid {j : Json} {p : Point}
    (h : unmarshalPoint j = .ok p) : p.IsValid = true := by
  unfold unmarshalPoint at h
  split at h
  · split at h
    · exact pointFromGeoJSON_isValid h
    · exact fallbackFlat_isValid h
  · exact fallbackFlat_isValid h

/-! ## Claim theorems: GeoPoint codec -/

/-- C4: coordinate validation succeeds exactly on latitude ∈ [-90, 90] and
longitude ∈ [-180, 180] (boundaries accepted), for both `Point.IsValid` and
`Location.Validate`; every decode path (`Point.UnmarshalJSON`,
`PointFromGeoJSON`, `PointFromWKT`) yields only range-valid points; and an
out-of-range coordinate reaching any decode path's validation is rejected
with an error — never clamped into range and returned as a point: the
GeoJSON and flat wire forms of an invalid point, a type-"Point" two-element
GeoJSON structure with invalid coordinates, and a WKT text with invalid
numerals all decode to errors. -/
theorem C4_validation_range_exact :
    ∀ (p : Point) (l : Location) (j : Json) (gj : GeoJSONPoint) (w : WKTText)
      (q1 q2 q3 : Point),
      (p.IsValid = true ↔
        (-90 ≤ p.latitude ∧ p.latitude ≤ 90 ∧
          -180 ≤ p.longitude ∧ p.longitude ≤ 180)) ∧
      (l.Validate = .ok () ↔
        (-90 ≤ l.latitude ∧ l.latitude ≤ 90 ∧
          -180 ≤ l.longitude ∧ l.longitude ≤ 180)) ∧
      (unmarshalPoint j = .ok q1 → q1.IsValid = true) ∧
      (PointFromGeoJSON gj = .ok q2 → q2.IsValid = true) ∧
      (PointFromWKT w = .ok q3 → q3.IsValid = true) ∧
      (p.IsValid = false →
        unmarshalPoint (geoJsonWire p.longitude p.latitude)
          = .error "invalid coordinates") ∧
      (p.IsValid = false →
        unmarshalPoint (flatWire p.longitude p.latitude)
          = .error "invalid coordinates") ∧
      (gj.type = "Point" → gj.coordinates.length = 2 →
        Point.IsValid ⟨gj.coordinates.getD 0 0, gj.coordinates.getD 1 0⟩ = false →
        PointFromGeoJSON gj = .error "invalid coordinates") ∧
      (Point.IsValid ⟨w.lng, w.lat⟩ = false →
        PointFromWKT w = .error "invalid coordinates in WKT") := by
  intro p l j gj w q1 q2 q3
  refine ⟨isValid_iff p, validate_iff l,
    fun h => unmarshalPoint_isValid h,
    fun h => pointFromGeoJSON_isValid h,
    fun h => pointFromWKT_isValid h, fun h => ?_, fun h => ?_,
    fun h1 h2 h3 => ?_, fun h => ?_⟩
  · have e : unmarshalPoint (geoJsonWire p.longitude p.latitude)
        = if p.IsValid then Except.ok p
          else Except.error "invalid coordinates" := rfl
    rw [e, h]
    simp
  · have e : unmarshalPoint (flatWire p.longitude p.latitude)
        = if p.IsValid then Except.ok p
          else Except.error "invalid coordinates" := rfl
    rw [e, h]
    simp
  · unfold PointFromGeoJSON
    rw [if_neg (by simp [h1]), if_neg (by simp [h2]), if_neg (by simpa using h3)]
  · unfold PointFromWKT
    rw [if_neg (by simp [h])]

/-- Witness for C4: the boundary point (lng 180, lat 90) is accepted by
`IsValid`, the boundary location (lat −90, lng −180) passes `Validate`, a
decoded in-range point is valid, and the out-of-range latitude 200 is
rejected with an error by all four decode routes rather than clamped. -/
theorem C4_validation_range_exact_witness :
    Point.IsValid ⟨180, 90⟩ = true ∧
      Location.Validate ⟨-90, -180⟩ = .ok () ∧
      Point.IsValid ⟨73, 19⟩ = true ∧
      unmarshalPoint (geoJsonWire 0 200) = .error "invalid coordinates" ∧
      unmarshalPoint (flatWire 0 200) = .error "invalid coordinates" ∧
      PointFromGeoJSON ⟨"Point", [0, 200]⟩ = .error "invalid coordinates" ∧
      PointFromWKT ⟨0, 200⟩ = .error "invalid coordinates in WKT" :=
  ⟨(C4_validation_range_exact ⟨180, 90⟩ ⟨-90, -180⟩ .null ⟨"", []⟩ ⟨0, 0⟩
      ⟨0, 0⟩ ⟨0, 0⟩ ⟨0, 0⟩).1.mpr (by norm_num),
    (C4_validation_range_exact ⟨180, 90⟩ ⟨-90, -180⟩ .null ⟨"", []⟩ ⟨0, 0⟩
      ⟨0, 0⟩ ⟨0, 0⟩ ⟨0, 0⟩).2.1.mpr (by norm_num),
    (C4_validation_range_exact ⟨73, 19⟩ ⟨-90, -180⟩
      (geoJsonWire 73 19) ⟨"", []⟩ ⟨0, 0⟩ ⟨73, 19⟩ ⟨0, 0⟩ ⟨0, 0⟩).2.2.1 rfl,
    (C4_validation_range_exact ⟨0, 200⟩ ⟨-90, -180⟩ .null ⟨"", []⟩ ⟨0, 0⟩
      ⟨0, 0⟩ ⟨0, 0⟩ ⟨0, 0⟩).2.2.2.2.2.1 (by decide),
    (C4_validation_range_exact ⟨0, 200⟩ ⟨-90, -180⟩ .null ⟨"", []⟩ ⟨0, 0⟩
      ⟨0, 0⟩ ⟨0, 0⟩ ⟨0, 0⟩).2.2.2.2.2.2.1 (by decide),
    (C4_validation_range_exact ⟨0, 200⟩ ⟨-90, -180⟩ .null ⟨"Point", [0, 200]⟩
      ⟨0, 0⟩ ⟨0, 0⟩ ⟨0, 0⟩ ⟨0, 0⟩).2.2.2.2.2.2.2.1 rfl rfl (by decide),
    (C4_validation_range_exact ⟨0, 200⟩ ⟨-90, -180⟩ .null ⟨"", []⟩
      ⟨0, 200⟩ ⟨0, 0⟩ ⟨0, 0⟩ ⟨0, 0⟩).2.2.2.2.2.2.2.2 (by decide)⟩

/-- C3: `MarshalJSON` always emits the canonical GeoJSON-Point form (it is a
function of the point alone, so the wire form the point was decoded from is
irrelevant), and decoding that output returns exactly the original point
whenever it is valid: decode ∘ encode = id on valid points. -/
theorem C3_encode_decode_roundtrip :
    ∀ p : Point,
      p.MarshalJSON = geoJsonWire p.longitude p.latitude ∧
      (p.IsValid = true → unmarshalPoint p.MarshalJSON = .ok p) := by
  intro p
  refine ⟨rfl, fun h => ?_⟩
  have e : unmarshalPoint p.MarshalJSON
      = if p.IsValid then Except.ok p else Except.error "invalid coordinates" := rfl
  rw [e, h]
  simp

/-- Witness for C3: round trip at the concrete valid point (73, 19). -/
theorem C3_encode_decode_roundtrip_witness :
    unmarshalPoint (Point.MarshalJSON ⟨73, 19⟩) = .ok ⟨73, 19⟩ :=
  (C3_encode_decode_roundtrip ⟨73, 19⟩).2 (by decide)

/-- C10: the encode paths perform no range validation and always produce
output — `ToGeoJSON`, `MarshalJSON` and `ToWKT` are total functions emitting
the point's coordinates as-is (only `ToWKT` rounds to the 6 decimals of
`%f`) — while the decode paths reject the same out-of-range coordinates, so
an invalid point round-trips to a decode error, not an encode error. -/
theorem C10_encode_never_validates :
    ∀ p : Point,
      p.ToGeoJSON = ⟨"Point", [p.longitude, p.latitude]⟩ ∧
      p.MarshalJSON = geoJsonWire p.longitude p.latitude ∧
      p.ToWKT = ⟨round6 p.longitude, round6 p.latitude⟩ ∧
      (p.IsValid = false →
        unmarshalPoint p.MarshalJSON = .error "invalid coordinates") ∧
      (Point.IsValid ⟨round6 p.longitude, round6 p.latitude⟩ = false →
        PointFromWKT p.ToWKT = .error "invalid coordinates in WKT") := by
  intro p
  refine ⟨rfl, rfl, rfl, fun h => ?_, fun h => ?_⟩
  · have e : unmarshalPoint p.MarshalJSON
        = if p.IsValid then Except.ok p
          else Except.error "invalid coordinates" := rfl
    rw [e, h]
    simp
  · have e : PointFromWKT p.ToWKT
        = if Point.IsValid ⟨round6 p.longitude, round6 p.latitude⟩ then
            Except.ok ⟨round6 p.longitude, round6 p.latitude⟩
          else Except.error "invalid coordinates in WKT" := rfl
    rw [e, h]
    simp

/-- Witness for C10: the out-of-range point (lng 0, lat 200) still encodes
to GeoJSON and WKT output, and both decode paths reject it. -/
theorem C10_encode_never_validates_witness :
    Point.MarshalJSON ⟨0, 200⟩ = geoJsonWire 0 200 ∧
      unmarshalPoint (Point.MarshalJSON ⟨0, 200⟩) = .error "invalid coordinates" ∧
      PointFromWKT (Point.ToWKT ⟨0, 200⟩) = .error "invalid coordinates in WKT" :=
  ⟨(C10_encode_never_validates ⟨0, 200⟩).2.1,
    (C10_encode_never_validates ⟨0, 200⟩).2.2.2.1 (by decide),
    (C10_encode_never_validates ⟨0, 200⟩).2.2.2.2 (by with_unfolding_all decide)⟩

/-- C2 counterexample: the valid point with longitude 10⁻⁷ is mangled by the
WKT round trip — `ToWKT` renders with `%f` (six decimal places), so the
emitted text is `POINT(0.000000 0.000000)`, which decodes back to (0, 0),
not to the original point. The claim that toWKT output decodes back to
exactly p is therefore false. -/
theorem C2_wkt_roundtrip_counterexample :
    Point.IsValid ⟨1 / 10000000, 0⟩ = true ∧
      PointFromWKT (Point.ToWKT ⟨1 / 10000000, 0⟩) = .ok ⟨0, 0⟩ ∧
      Point.mk 0 0 ≠ ⟨1 / 10000000, 0⟩ :=
  ⟨by with_unfolding_all decide, by with_unfolding_all decide,
    by with_unfolding_all decide⟩

/-- C2 amended: for every valid coordinate the GeoJSON-Point wire form, the
flat wire form, and a WKT text carrying the exact numerals all decode to the
bit-identical GeoPoint; the WKT emitted by `ToWKT` (longitude first) decodes
back to exactly p only when p's coordinates are fixed points of rounding to
the six decimal places that `%f` emits. -/
theorem C2_format_equivalence_amended :
    ∀ lng lat : ℚ, Point.IsValid ⟨lng, lat⟩ = true →
      unmarshalPoint (geoJsonWire lng lat) = .ok ⟨lng, lat⟩ ∧
      unmarshalPoint (flatWire lng lat) = .ok ⟨lng, lat⟩ ∧
      PointFromWKT (wktWire lng lat) = .ok ⟨lng, lat⟩ ∧
      (round6 lng = lng → round6 lat = lat →
        PointFromWKT (Point.ToWKT ⟨lng, lat⟩) = .ok ⟨lng, lat⟩) := by
  intro lng lat h
  refine ⟨?_, ?_, ?_, fun h1 h2 => ?_⟩
  · have e : unmarshalPoint (geoJsonWire lng lat)
        = if Point.IsValid ⟨lng, lat⟩ then Except.ok ⟨lng, lat⟩
          else Except.error "invalid coordinates" := rfl
    rw [e, h]
    simp
  · have e : unmarshalPoint (flatWire lng lat)
        = if Point.IsValid ⟨lng, lat⟩ then Except.ok ⟨lng, lat⟩
          else Except.error "invalid coordinates" := rfl
    rw [e, h]
    simp
  · have e : PointFromWKT (wktWire lng lat)
        = if Point.IsValid ⟨lng, lat⟩ then Except.ok ⟨lng, lat⟩
          else Except.error "invalid coordinates in WKT" := rfl
    rw [e, h]
    simp
  · have e : Point.ToWKT ⟨lng, lat⟩ = (⟨round6 lng, round6 lat⟩ : WKTText) := rfl
    rw [e, h1, h2]
    have e2 : PointFromWKT ⟨lng, lat⟩
        = if Point.IsValid ⟨lng, lat⟩ then Except.ok ⟨lng, lat⟩
          else Except.error "invalid coordinates in WKT" := rfl
    rw [e2, h]
    simp

/-- Witness for C2 (amended) at (lng 147/2 = 73.5, lat 19), whose
coordinates are exact at six decimals: all three wire forms decode to the
identical point and the toWKT round trip is the identity. -/
theorem C2_format_equivalence_amended_witness :
    unmarshalPoint (geoJsonWire (147 / 2) 19) = .ok ⟨147 / 2, 19⟩ ∧
      unmarshalPoint (flatWire (147 / 2) 19) = .ok ⟨147 / 2, 19⟩ ∧
      PointFromWKT (wktWire (147 / 2) 19) = .ok ⟨147 / 2, 19⟩ ∧
      PointFromWKT (Point.ToWKT ⟨147 / 2, 19⟩) = .ok ⟨147 / 2, 19⟩ := by
  have h := C2_format_equivalence_amended (147 / 2) 19 (by with_unfolding_all decide)
  exact ⟨h.1, h.2.1, h.2.2.1,
    h.2.2.2 (by with_unfolding_all decide) (by with_unfolding_all decide)⟩

/-- Extracting the flat-form parse from a successful fallback. -/
theorem fallbackFlat_ok {j : Json} {p : Point} (h : fallbackFlat j = .ok p) :
    ∃ a, unmarshalFlat j = .ok a ∧ p = ⟨a.longitude, a.latitude⟩ := by
  unfold fallbackFlat at h
  split at h
  · cases h
  · rename_i a heq
    split at h
    · cases h
      exact ⟨a, heq, rfl⟩
    · cases h

/-- C1: `Point.UnmarshalJSON` attempts the GeoJSON-Point form first — when
the GeoJSON unmarshal succeeds with type tag "Point" that path alone decides
the result; otherwise it falls back to the flat form; and a point is
returned only when the input parses as one of the two forms AND the decoded
coordinates pass range validation (everything else is a decode error). -/
theorem C1_dual_format_decode :
    ∀ j : Json,
      (∀ gj, unmarshalGeoJSONPoint j = .ok gj → gj.type = "Point" →
        unmarshalPoint j = PointFromGeoJSON gj) ∧
      (geoJsonGuard j = false → unmarshalPoint j = fallbackFlat j) ∧
      (∀ p, unmarshalPoint j = .ok p →
        p.IsValid = true ∧
          ((∃ gj, unmarshalGeoJSONPoint j = .ok gj ∧ gj.type = "Point") ∨
            (∃ a, unmarshalFlat j = .ok a ∧ p = ⟨a.longitude, a.latitude⟩))) := by
  intro j
  refine ⟨?_, ?_, ?_⟩
  · intro gj hok htype
    unfold unmarshalPoint
    rw [hok]
    simp [htype]
  · intro hguard
    unfold geoJsonGuard at hguard
    unfold unmarshalPoint
    cases hu : unmarshalGeoJSONPoint j with
    | ok gj =>
        rw [hu] at hguard
        dsimp only at hguard
        have hne : gj.type ≠ "Point" := by
          intro h
          rw [h] at hguard
          simp at hguard
        simp [hne]
    | error e => rfl
  · intro p hok
    refine ⟨unmarshalPoint_isValid hok, ?_⟩
    unfold unmarshalPoint at hok
    cases hu : unmarshalGeoJSONPoint j with
    | ok gj =>
        rw [hu] at hok
        dsimp only at hok
        by_cases ht : gj.type = "Point"
        · exact .inl ⟨gj, rfl, ht⟩
        · rw [if_neg ht] at hok
          exact .inr (fallbackFlat_ok hok)
    | error e =>
        rw [hu] at hok
        dsimp only at hok
        exact .inr (fallbackFlat_ok hok)

/-- Witness for C1: a GeoJSON-form input is decided by the GeoJSON path, and
a flat-form input (whose guard is false) is decided by the fallback. -/
theorem C1_dual_format_decode_witness :
    unmarshalPoint (geoJsonWire 73 19) = PointFromGeoJSON ⟨"Point", [73, 19]⟩ ∧
      unmarshalPoint (flatWire 73 19) = fallbackFlat (flatWire 73 19) :=
  ⟨(C1_dual_format_decode (geoJsonWire 73 19)).1 ⟨"Point", [73, 19]⟩ rfl rfl,
    (C1_dual_format_decode (flatWire 73 19)).2.1 rfl⟩

/-- C9: the haversine `Point.Distance` is a pseudometric-style distance:
symmetric in its arguments, nonnegative, and zero from a point to itself —
hence a distance matrix built from the local haversine fallback is always
symmetric, unlike a network provider's travel matrix. -/
theorem C9_distance_pseudometric :
    ∀ p q : Point,
      p.Distance q = q.Distance p ∧ 0 ≤ p.Distance q ∧ p.Distance p = 0 := by
  intro p q
  refine ⟨?_, ?_, ?_⟩
  · simp only [Point.Distance]
    congr 1
    congr 1
    rw [Real.cos_sub, Real.cos_sub, Real.cos_sub, Real.cos_sub]
    ring_nf
  · simp only [Point.Distance]
    apply mul_nonneg
    · norm_num
    · exact Real.arcsin_nonneg.mpr (Real.sqrt_nonneg _)
  · simp only [Point.Distance, sub_self, Real.cos_zero]
    norm_num [Real.sqrt_zero, Real.arcsin_zero]

/-! ## Optimizer lemmas -/

theorem lastDeparture_append (v : Visit) :
    ∀ (visits : List Visit) (dflt : ℤ),
      lastDeparture dflt (visits ++ [v]) = v.DepartureTime := by
  intro visits
  induction visits with
  | nil => intro dflt; rfl
  | cons w rest ih => intro dflt; exact ih w.DepartureTime

theorem chainOk_append_iff (dwell : ℤ) (v : Visit) :
    ∀ (visits : List Visit) (prevDep : ℤ),
      chainOk dwell prevDep (visits ++ [v]) = true ↔
        (chainOk dwell prevDep visits = true ∧
          v.DepartureTime = v.ArrivalTime + dwell ∧
          v.ArrivalTime = lastDeparture prevDep visits + v.TravelTimeFromPrevious) := by
  intro visits
  induction visits with
  | nil =>
      intro prevDep
      simp [chainOk, lastDeparture]
  | cons w rest ih =>
      intro prevDep
      have e : ((w :: rest) ++ [v]) = w :: (rest ++ [v]) := rfl
      rw [e]
      simp only [chainOk, Bool.and_eq_true, beq_iff_eq, lastDeparture]
      rw [ih w.DepartureTime]
      tauto

/-- A successful `findNearest` returns a member of the scanned list. -/
theorem findNearest_mem {fromLoc : Location} {matrix : DistanceMatrix}
    {p : PlaceE} {d : ℚ} :
    ∀ {places : List PlaceE},
      findNearest fromLoc places matrix = (some p, d) → p ∈ places := by
  have aux : ∀ (places : List PlaceE) (acc : Option PlaceE × ℚ),
      (places.foldl
        (fun acc place =>
          let dist := matrix.GetDistance fromLoc place.location
          if dist < acc.2 then (some place, dist) else acc) acc).1 = some p →
      p ∈ places ∨ acc.1 = some p := by
    intro places
    induction places with
    | nil => intro acc h; exact .inr h
    | cons hd tl ih =>
        intro acc h
        rcases ih _ h with hmem | hacc
        · exact .inl (List.mem_cons_of_mem hd hmem)
        · dsimp only at hacc
          split at hacc
          · cases hacc
            exact .inl (List.mem_cons_self _ _)
          · exact .inr hacc
  intro places h
  have h1 : (findNearest fromLoc places matrix).1 = some p := by rw [h]
  rcases aux places (none, maxFloat64) h1 with hmem | hnone
  · exact hmem
  · cases hnone

/-- Invariant of the greedy loop: starting from an accumulated visit list
whose timeline chains from `ws` and whose clock equals its last departure,
a successful run returns a visit list with the same properties, and every
departure within the window. -/
theorem optimizeLoop_ok_invariant
    (matrix : DistanceMatrix) (endTime dwell ws : ℤ) :
    ∀ (fuel : Nat) (unvisited : List PlaceE) (curLoc : Location) (clock : ℤ)
      (visits : List Visit) (td : ℚ) (tt seq : ℤ)
      (out : List Visit × ℚ × ℤ × ℤ),
      chainOk dwell ws visits = true →
      clock = lastDeparture ws visits →
      (∀ v ∈ visits, v.DepartureTime ≤ endTime) →
      optimizeLoop matrix endTime dwell fuel curLoc clock unvisited visits td tt seq
        = .ok out →
      chainOk dwell ws out.1 = true ∧
        out.2.2.2 = lastDeparture ws out.1 ∧
        (∀ v ∈ out.1, v.DepartureTime ≤ endTime) := by
  intro fuel
  induction fuel with
  | zero =>
      intro unvisited curLoc clock visits td tt seq out hchain hclock hle hrun
      cases unvisited with
      | nil =>
          simp only [optimizeLoop] at hrun
          cases hrun
          exact ⟨hchain, hclock, hle⟩
      | cons hd tl =>
          simp only [optimizeLoop] at hrun
          cases hrun
  | succ n ih =>
      intro unvisited curLoc clock visits td tt seq out hchain hclock hle hrun
      cases unvisited with
      | nil =>
          simp only [optimizeLoop] at hrun
          cases hrun
          exact ⟨hchain, hclock, hle⟩
      | cons hd tl =>
          simp only [optimizeLoop] at hrun
          rcases hfn : findNearest curLoc (hd :: tl) matrix with ⟨onp, md⟩
          rw [hfn] at hrun
          cases onp with
          | none => cases hrun
          | some np =>
              dsimp only at hrun
              split at hrun
              · cases hrun
              · rename_i hfit
                refine ih _ _ _ _ _ _ _ _ ?_ ?_ ?_ hrun
                · rw [chainOk_append_iff]
                  refine ⟨hchain, rfl, ?_⟩
                  dsimp only
                  rw [hclock]
                · rw [lastDeparture_append]
                · intro v hv
                  rcases List.mem_append.mp hv with hold | hnew
                  · exact hle v hold
                  · rcases List.mem_singleton.mp hnew with rfl
                    dsimp only
                    exact le_of_not_lt hfit

/-! ## Concrete optimizer fixtures -/

/-- Start location at the origin. -/
def demoStart : Location := ⟨0, 0⟩

/-- First demo place. -/
def demoPlace1 : PlaceE := ⟨"p1", ⟨1, 0⟩⟩

/-- Second demo place. -/
def demoPlace2 : PlaceE := ⟨"p2", ⟨2, 0⟩⟩

/-- Matrix with every leg 1 km and 30 minutes (the spec's feasibility
boundary instance: two places 30 minutes apart from start and each other). -/
def demoMatrix : DistanceMatrix := ⟨fun _ _ => 1, fun _ _ => 30⟩

/-- Matrix with all distances equal: every pair of places ties. -/
def tieMatrix : DistanceMatrix := ⟨fun _ _ => 5, fun _ _ => 10⟩

/-- Place A at coordinate 1 on the shared axis. -/
def placeA : PlaceE := ⟨"A", ⟨1, 0⟩⟩

/-- Place B at coordinate 5 on the shared axis. -/
def placeB : PlaceE := ⟨"B", ⟨5, 0⟩⟩

/-- Place C at coordinate 2 on the shared axis. -/
def placeC : PlaceE := ⟨"C", ⟨2, 0⟩⟩

/-- Straight-line distances for the collinear greedy instance: start (0,0),
A(0,1), B(0,5), C(0,2) all lie on one axis, so the straight-line distance
is the absolute coordinate difference. -/
def lineMatrix : DistanceMatrix :=
  ⟨fun l1 l2 => |l1.latitude - l2.latitude|, fun _ _ => 0⟩

/-- The visit order of a route, as place ids. -/
def visitIds (r : OptimizedRoute) : List String :=
  r.Visits.map (fun v => v.Place.id)

/-- The route computed for a single place 30 minutes away with 60-minute
dwell in window [0, 120]. -/
def demoRoute : OptimizedRoute :=
  ⟨[⟨1, demoPlace1, 30, 90, 60, 30, 1⟩], 1, 30, 90, 30, true⟩

/-! ## Claim theorems: optimizer -/

/-- C7: every successful optimization satisfies the timeline invariant —
each visit departs `dwell` minutes after arriving, each arrival is the
previous departure (window start for the first visit) plus the travel time,
and the result carries `completionTime` = last departure, `bufferMinutes` =
`windowEnd − completionTime`, and `feasible = true`. -/
theorem C7_timeline_invariant :
    ∀ (startLoc : Location) (places : List PlaceE) (ws we dwell : ℤ)
      (matrix : DistanceMatrix) (r : OptimizedRoute),
      optimizeRoute startLoc places ws we dwell matrix = .ok r →
      chainOk dwell ws r.Visits = true ∧
        r.CompletionTime = lastDeparture ws r.Visits ∧
        r.TimeBufferMinutes = we - r.CompletionTime ∧
        r.Feasible = true := by
  intro s places ws we dwell m r hrun
  unfold optimizeRoute at hrun
  rcases hl : optimizeLoop m we dwell places.length s ws places [] 0 0 1 with e | q
  · rw [hl] at hrun
    cases hrun
  · rw [hl] at hrun
    obtain ⟨vs, td, tt, c⟩ := q
    dsimp only at hrun
    cases hrun
    have hinv := optimizeLoop_ok_invariant m we dwell ws places.length places s ws
      [] 0 0 1 (vs, td, tt, c) rfl rfl (by intro v hv; cases hv) hl
    exact ⟨hinv.1, hinv.2.1, rfl, rfl⟩

/-- Witness for C7: the single-place run (30-minute leg, 60-minute dwell,
window [0, 120]) produces the route with arrival 30, departure 90,
completion 90, buffer 30, feasible. -/
theorem C7_timeline_invariant_witness :
    chainOk 60 0 demoRoute.Visits = true ∧
      demoRoute.CompletionTime = lastDeparture 0 demoRoute.Visits ∧
      demoRoute.TimeBufferMinutes = 120 - demoRoute.CompletionTime ∧
      demoRoute.Feasible = true :=
  C7_timeline_invariant demoStart [demoPlace1] 0 120 60 demoMatrix demoRoute
    (by with_unfolding_all decide)

/-- C5 (amended): a run in which any step's departure would exceed the
window end never returns a route — success implies every departure is
within the window — and when the next selected stop overflows, the loop
aborts right there with the fixed error `cannot fit all places: time window
exceeded` (which carries no diagnostics), emitting zero visits. -/
theorem C5_abort_on_overflow_zero_visits :
    ∀ (startLoc : Location) (places : List PlaceE) (ws we dwell : ℤ)
      (matrix : DistanceMatrix),
      (∀ r, optimizeRoute startLoc places ws we dwell matrix = .ok r →
        ∀ v ∈ r.Visits, v.DepartureTime ≤ we) ∧
      (∀ (fuel : Nat) (curLoc : Location) (clock : ℤ) (hd : PlaceE)
          (tl : List PlaceE) (visits : List Visit) (td : ℚ) (tt seq : ℤ)
          (np : PlaceE) (md : ℚ),
        findNearest curLoc (hd :: tl) matrix = (some np, md) →
        clock + matrix.GetTime curLoc np.location + dwell > we →
        optimizeLoop matrix we dwell (fuel + 1) curLoc clock (hd :: tl)
          visits td tt seq
          = .error "cannot fit all places: time window exceeded") := by
  intro s places ws we dwell m
  constructor
  · intro r hrun
    unfold optimizeRoute at hrun
    rcases hl : optimizeLoop m we dwell places.length s ws places [] 0 0 1 with e | q
    · rw [hl] at hrun
      cases hrun
    · rw [hl] at hrun
      obtain ⟨vs, td, tt, c⟩ := q
      dsimp only at hrun
      cases hrun
      have hinv := optimizeLoop_ok_invariant m we dwell ws places.length places s ws
        [] 0 0 1 (vs, td, tt, c) rfl rfl (by intro v hv; cases hv) hl
      exact hinv.2.2
  · intro fuel curLoc clock hd tl visits td tt seq np md hfn hover
    simp only [optimizeLoop]
    rw [hfn]
    dsimp only
    rw [if_pos hover]

/-- Witness for C5: after visiting the first demo place (clock 90), the
second stop's departure would be 180 > 120, so the loop aborts with the
fixed error. -/
theorem C5_abort_on_overflow_zero_visits_witness :
    optimizeLoop demoMatrix 120 60 1 demoPlace1.location 90 [demoPlace2]
        [⟨1, demoPlace1, 30, 90, 60, 30, 1⟩] 1 30 2
      = .error "cannot fit all places: time window exceeded" :=
  (C5_abort_on_overflow_zero_visits demoStart [demoPlace1, demoPlace2] 0 120 60
      demoMatrix).2
    0 demoPlace1.location 90 demoPlace2 [] [⟨1, demoPlace1, 30, 90, 60, 30, 1⟩]
    1 30 2 demoPlace2 1 (by with_unfolding_all decide) (by decide)

/-- C5 counterexample: the infeasibility failure carries no
{requiredMinutes, availableMinutes} diagnostic — two runs with different
available minutes (window 120 vs window 90, same required 180) return the
very same error value, so the failure cannot convey either number. -/
theorem C5_no_diagnostic_payload_counterexample :
    optimizeRoute demoStart [demoPlace1, demoPlace2] 0 120 60 demoMatrix
        = .error "cannot fit all places: time window exceeded" ∧
      optimizeRoute demoStart [demoPlace1, demoPlace2] 0 90 60 demoMatrix
        = .error "cannot fit all places: time window exceeded" ∧
      (120 : ℤ) - 0 ≠ 90 - 0 := by
  refine ⟨by with_unfolding_all decide, by with_unfolding_all decide, by decide⟩

/-- C6 (amended): for a fixed iteration order the optimizer is a pure
function, and `findNearest` breaks distance ties by keeping the FIRST place
encountered in the iteration order (strict `<` never replaces an equal
minimum): with two tied places, whichever comes first in the order wins,
irrespective of place ids. -/
theorem C6_tie_broken_by_iteration_order :
    ∀ (fromLoc : Location) (p1 p2 : PlaceE) (m : DistanceMatrix),
      m.GetDistance fromLoc p1.location = m.GetDistance fromLoc p2.location →
      m.GetDistance fromLoc p1.location < maxFloat64 →
      findNearest fromLoc [p1, p2] m
          = (some p1, m.GetDistance fromLoc p1.location) ∧
        findNearest fromLoc [p2, p1] m
          = (some p2, m.GetDistance fromLoc p2.location) := by
  intro fromLoc p1 p2 m heq hlt
  constructor
  · show List.foldl _ (none, maxFloat64) [p1, p2] = _
    simp only [List.foldl]
    dsimp only
    rw [if_pos hlt]
    rw [← heq, if_neg (lt_irrefl _)]
  · have hlt2 : m.GetDistance fromLoc p2.location < maxFloat64 := heq ▸ hlt
    show List.foldl _ (none, maxFloat64) [p2, p1] = _
    simp only [List.foldl]
    dsimp only
    rw [if_pos hlt2]
    rw [heq, if_neg (lt_irrefl _)]

/-- Witness for C6 (amended): with the all-ties matrix, the first-listed of
the two demo places wins in either order. -/
theorem C6_tie_broken_by_iteration_order_witness :
    findNearest demoStart [demoPlace1, demoPlace2] tieMatrix = (some demoPlace1, 5) ∧
      findNearest demoStart [demoPlace2, demoPlace1] tieMatrix = (some demoPlace2, 5) :=
  C6_tie_broken_by_iteration_order demoStart demoPlace1 demoPlace2 tieMatrix rfl
    (by with_unfolding_all decide)

/-- C6 counterexample: the optimizer is NOT deterministic on identical
inputs, and ties are NOT broken by lowest place id. The two lists are
permutations of each other — the same remaining-places map, in two
iteration orders Go may produce — yet the computed routes differ; in the
second order the first visit is p2 although p1 has the lower id. -/
theorem C6_determinism_counterexample :
    List.Perm [demoPlace1, demoPlace2] [demoPlace2, demoPlace1] ∧
      optimizeRoute demoStart [demoPlace1, demoPlace2] 0 1000 20 tieMatrix
        ≠ optimizeRoute demoStart [demoPlace2, demoPlace1] 0 1000 20 tieMatrix ∧
      (optimizeRoute demoStart [demoPlace2, demoPlace1] 0 1000 20 tieMatrix).map
          visitIds = .ok ["p2", "p1"] ∧
      demoPlace1.id < demoPlace2.id := by
  refine ⟨by decide, by with_unfolding_all decide, by with_unfolding_all decide,
    by with_unfolding_all decide⟩

/-- C8: on the spec's concrete greedy instance — start (0,0) and places
A(0,1), B(0,5), C(0,2) with straight-line distances — the optimizer visits
A, C, B for EVERY input order of the three places, i.e. nearest-neighbor
order by distance from the current position, not input order. -/
theorem C8_greedy_nearest_neighbor_order :
    (optimizeRoute demoStart [placeA, placeB, placeC] 0 1000 0 lineMatrix).map
        visitIds = .ok ["A", "C", "B"] ∧
      (optimizeRoute demoStart [placeA, placeC, placeB] 0 1000 0 lineMatrix).map
        visitIds = .ok ["A", "C", "B"] ∧
      (optimizeRoute demoStart [placeB, placeA, placeC] 0 1000 0 lineMatrix).map
        visitIds = .ok ["A", "C", "B"] ∧
      (optimizeRoute demoStart [placeB, placeC, placeA] 0 1000 0 lineMatrix).map
        visitIds = .ok ["A", "C", "B"] ∧
      (optimizeRoute demoStart [placeC, placeA, placeB] 0 1000 0 lineMatrix).map
        visitIds = .ok ["A", "C", "B"] ∧
      (optimizeRoute demoStart [placeC, placeB, placeA] 0 1000 0 lineMatrix).map
        visitIds = .ok ["A", "C", "B"] ∧
      (["A", "C", "B"] : List String) ≠ ["A", "B", "C"] := by
  with_unfolding_all decide

end NashikDarshan
